import Mathlib

/-!
Verification of the sparkler particle system (constants.ts, types.ts,
particles.ts, SparklerRecorder.tsx) as a shallow embedding.

Modelling conventions:
* JS numbers are modelled as `ℚ` (the program only adds, multiplies,
  compares and clamps; no claim depends on floating-point rounding).
* `Math.random()` is modelled as an abstract stream `rand : ℕ → ℚ`;
  each call site reads a distinct index.  Where a property needs the
  JS contract `0 ≤ rand < 1` it is an explicit hypothesis.
* `Math.cos(a)` / `Math.sin(a)` for the random angle
  `a = Math.random() * Math.PI * 2` are modelled by abstract functions
  `dirCos, dirSin : ℚ → ℚ` applied to the raw random sample: the code
  only uses them to pick a random direction, and no claim depends on
  trigonometric identities.
* `Math.sqrt(vx*vx + vy*vy) > c` for a nonnegative constant `c` is
  encoded as `c^2 < vx^2 + vy^2` (and `<` likewise), which is exactly
  equivalent; every speed threshold in the program (3, 5, 6, 15) is
  positive, and the speed value is used only in such comparisons.
-/

namespace Sparkler

/-- constants.ts: `INERTIA_FACTOR = 0.25`. -/
def INERTIA_FACTOR : ℚ := 1/4

/-- constants.ts: `DRAW_SPEED_THRESHOLD = 3.0`. -/
def DRAW_SPEED_THRESHOLD : ℚ := 3

/-- constants.ts: `BURST_ARM_SPEED = 15.0`. -/
def BURST_ARM_SPEED : ℚ := 15

/-- constants.ts: `BURST_TRIGGER_SPEED = 5.0`. -/
def BURST_TRIGGER_SPEED : ℚ := 5

/-- constants.ts: `TRAIL_COLOR = '255, 215, 0'` (gold). -/
def TRAIL_COLOR : String := "255, 215, 0"

/-- constants.ts: `BURST_PARTICLE_COUNT = 60`. -/
def BURST_PARTICLE_COUNT : ℕ := 60

/-- constants.ts: `BURST_COLORS` palette. -/
def BURST_COLORS : List String :=
  ["255, 100, 50", "255, 215, 0", "255, 255, 255", "100, 200, 255"]

/-- types.ts: `Point`. -/
structure Point where
  x : ℚ
  y : ℚ
deriving DecidableEq

/-- types.ts: particle `type` field, `'trail' | 'burst'`. -/
inductive PKind where
  | trail
  | burst
deriving DecidableEq

/-- types.ts: `Particle`. -/
structure Particle where
  x : ℚ
  y : ℚ
  vx : ℚ
  vy : ℚ
  life : ℚ
  decay : ℚ
  color : String
  size : ℚ
  type : PKind
  gravity : ℚ
deriving DecidableEq

/-- Abstract random environment: one `Math.random()` stream plus the
direction functions (see the modelling conventions above). -/
structure Rng where
  rand : ℕ → ℚ
  dirCos : ℚ → ℚ
  dirSin : ℚ → ℚ

/-- particles.ts: `createTrailParticle(x, y, velocity, color)`.
Reads four random samples at indices `k..k+3` (angle, speed, decay,
size).  Numeric literals: `0.1 = 1/10`, `0.02 = 1/50`, `0.03 = 3/100`. -/
def createTrailParticle (x y : ℚ) (velocity : Point) (color : String)
    (env : Rng) (k : ℕ) : Particle :=
  let speed := env.rand (k+1) * 2
  { x := x
    y := y
    vx := env.dirCos (env.rand k) * speed + velocity.x * (1/10)
    vy := env.dirSin (env.rand k) * speed + velocity.y * (1/10)
    life := 1
    decay := 1/50 + env.rand (k+2) * (3/100)
    color := "rgba(" ++ color ++ ","
    size := 2 + env.rand (k+3) * 3
    type := PKind.trail
    gravity := 1/10 }

/-- particles.ts: the body of the loop in `createBurstParticles`, one
burst particle, reading five random samples at `k..k+4` (angle, speed,
color index, decay, size).  `Math.floor(Math.random() * BURST_COLORS.length)`
is `(⌊r * 4⌋).toNat`; JS indexing is modelled by `getD` with default `""`. -/
def createBurstParticle (x y : ℚ) (env : Rng) (k : ℕ) : Particle :=
  let speed := 2 + env.rand (k+1) * 10
  { x := x
    y := y
    vx := env.dirCos (env.rand k) * speed
    vy := env.dirSin (env.rand k) * speed
    life := 1
    decay := 1/100 + env.rand (k+3) * (1/50)
    color := "rgba(" ++ BURST_COLORS.getD (⌊env.rand (k+2) * (BURST_COLORS.length : ℚ)⌋).toNat "" ++ ","
    size := 3 + env.rand (k+4) * 4
    type := PKind.burst
    gravity := 3/10 }

/-- particles.ts: `createBurstParticles(x, y)`: a batch of
`BURST_PARTICLE_COUNT` burst particles; iteration `i` of the loop reads
the five samples starting at `k + 5*i`. -/
def createBurstParticles (x y : ℚ) (env : Rng) (k : ℕ) : List Particle :=
  (List.range BURST_PARTICLE_COUNT).map (fun i => createBurstParticle x y env (k + 5*i))

/-- particles.ts: the per-particle body of `updateParticles`:
`life -= decay`; survivors move, get gravity, and floor-bounce
(`vy *= -0.6; y = height`) when `y > height && vy > 0` after the motion
and gravity updates; a particle whose life drops to `≤ 0` is dropped
with no motion applied.  `-0.6 = -(3/5)`. -/
def stepParticle (height : ℚ) (p : Particle) : Option Particle :=
  let life := p.life - p.decay
  if 0 < life then
    let x := p.x + p.vx
    let y := p.y + p.vy
    let vy := p.vy + p.gravity
    if height < y ∧ 0 < vy then
      some { p with x := x, y := height, vy := vy * (-(3/5)), life := life }
    else
      some { p with x := x, y := y, vy := vy, life := life }
  else
    none

/-- particles.ts: `updateParticles(particles, width, height)`: each
particle is processed independently by the loop body and the survivors
are returned in order (`width` is an unused parameter, as in the source). -/
def updateParticles (particles : List Particle) (width height : ℚ) : List Particle :=
  particles.filterMap (stepParticle height)

/-- SparklerRecorder.tsx: `EmitterState` (`{x, y, vx, vy, isBurstArmed}`). -/
structure EmitterState where
  x : ℚ
  y : ℚ
  vx : ℚ
  vy : ℚ
  isBurstArmed : Bool
deriving DecidableEq

/-- SparklerRecorder.tsx, `updateEmitter` trigger branch:
`lightingIntensityRef.current = Math.min(lightingIntensityRef.current + 0.5, 1.0)`. -/
def flashRaise (l : ℚ) : ℚ := min (l + 1/2) 1

/-- SparklerRecorder.tsx, `animate` step 4 ("Draw Lighting Effects"):
`if (lightingIntensityRef.current > 0.01) { ...; lightingIntensityRef.current *= 0.85; }` —
the multiplicative decay happens only inside the visibility guard.
`0.01 = 1/100`, `0.85 = 17/20`. -/
def lightingDecayTick (l : ℚ) : ℚ := if 1/100 < l then l * (17/20) else l

/-- SparklerRecorder.tsx, `animate`:
`particleMultiplier = 1 / Math.max(1, totalActiveEmitters * 0.5)`,
as a function of `totalActiveEmitters`. -/
def particleMultiplier (totalActiveEmitters : ℚ) : ℚ :=
  1 / max 1 (totalActiveEmitters * (1/2))

/-- SparklerRecorder.tsx, `animate`:
`const totalActiveEmitters = results.landmarks.length * 5` — five tracked
fingertip slots per detected hand. -/
def totalActiveEmitters (numHands : ℕ) : ℕ := numHands * 5

/-- The result of one `updateEmitter` call: the emitter written back to
the registry, the particles pushed onto `particlesRef`, and the new value
of `lightingIntensityRef`. -/
structure EmitterResult where
  emitter : EmitterState
  spawned : List Particle
  lighting : ℚ
deriving DecidableEq

/-- SparklerRecorder.tsx: `updateEmitter(key, targetX, targetY,
particleChance, color)`, for one key.  `prev` is the registry entry for
the key (`none` = newly observed: the emitter is seeded at the raw target
with zero velocity, unarmed, and the function returns before any physics
or emission).  Speed comparisons are encoded on squares (see the
modelling conventions).  Random samples: the burst batch reads indices
`0..299`, the two trail emission draws read `300` and `305`, and the
spawned trail particles read `301..304` and `306..309`. -/
def updateEmitter (prev : Option EmitterState) (targetX targetY : ℚ)
    (particleChance : ℚ) (color : String) (lighting : ℚ) (env : Rng) :
    EmitterResult :=
  match prev with
  | none => ⟨⟨targetX, targetY, 0, 0, false⟩, [], lighting⟩
  | some emitter =>
    let dx := targetX - emitter.x
    let dy := targetY - emitter.y
    let ex := emitter.x + dx * INERTIA_FACTOR
    let ey := emitter.y + dy * INERTIA_FACTOR
    let vx := dx * INERTIA_FACTOR
    let vy := dy * INERTIA_FACTOR
    -- speed = sqrt(vx^2 + vy^2); `speed > BURST_ARM_SPEED` etc. encoded on squares
    let armed1 := if BURST_ARM_SPEED^2 < vx^2 + vy^2 then true else emitter.isBurstArmed
    -- the trigger branch: spawn the burst batch, raise the flash, disarm
    let armed2 := if armed1 ∧ vx^2 + vy^2 < BURST_TRIGGER_SPEED^2 then false else armed1
    let burst := if armed1 ∧ vx^2 + vy^2 < BURST_TRIGGER_SPEED^2 then
      createBurstParticles ex ey env 0 else []
    let lighting' := if armed1 ∧ vx^2 + vy^2 < BURST_TRIGGER_SPEED^2 then
      flashRaise lighting else lighting
    let trails :=
      if DRAW_SPEED_THRESHOLD^2 < vx^2 + vy^2 then
        (if env.rand 300 < particleChance then
          [createTrailParticle ex ey ⟨vx, vy⟩ color env 301] else []) ++
        (if (DRAW_SPEED_THRESHOLD * 2)^2 < vx^2 + vy^2 ∧ env.rand 305 < particleChance then
          [createTrailParticle ex ey ⟨vx, vy⟩ color env 306] else [])
      else []
    ⟨⟨ex, ey, vx, vy, armed2⟩, burst ++ trails, lighting'⟩

/-- The emitter registry `emittersRef`: a map from key
`"handIndex-fingerIndex"` to `EmitterState`, modelled as an association
list without duplicate keys. -/
abbrev Registry := List (String × EmitterState)

/-- `emittersRef.current.get(key)`. -/
def regGet (k : String) : Registry → Option EmitterState
  | [] => none
  | (k', v) :: rest => if k' = k then some v else regGet k rest

/-- `emittersRef.current.set(key, value)` (replace or append). -/
def regSet (k : String) (v : EmitterState) : Registry → Registry
  | [] => [(k, v)]
  | (k', v') :: rest => if k' = k then (k, v) :: rest else (k', v') :: regSet k v rest

/-- `emittersRef.current.delete(key)` for a single key. -/
def regErase (k : String) : Registry → Registry
  | [] => []
  | (k', v) :: rest => if k' = k then regErase k rest else (k', v) :: regErase k rest

/-- One tracked fingertip slot in a frame: its registry key, the raw
pixel-space target (mirror mapping already applied by `animate`), and
its `FINGER_COLORS` entry. -/
structure Tracked where
  key : String
  x : ℚ
  y : ℚ
  color : String

/-- SparklerRecorder.tsx, `animate` step 3, the emission phase: the
`forEach` over tracked fingertip slots, each calling `updateEmitter`.
Returns the registry, the particles spawned this tick, and the lighting
intensity as they stand after the last `updateEmitter` call and before
the cleanup loop.  `envs i` is the random environment consumed by the
`i`-th call. -/
def emissionPhase (chance : ℚ) (envs : ℕ → Rng) :
    List Tracked → ℕ → Registry → ℚ → Registry × List Particle × ℚ
  | [], _, reg, light => (reg, [], light)
  | t :: rest, i, reg, light =>
    let r := updateEmitter (regGet t.key reg) t.x t.y chance t.color light (envs i)
    let out := emissionPhase chance envs rest (i+1) (regSet t.key r.emitter reg) r.lighting
    (out.1, r.spawned ++ out.2.1, out.2.2)

/-- SparklerRecorder.tsx, `animate`, the cleanup loop: every registry key
absent from `activeKeys` (the keys tracked this tick) is deleted. -/
def cleanupPhase (tracked : List Tracked) (reg : Registry) : Registry :=
  reg.filter (fun kv => (tracked.map Tracked.key).contains kv.1)

/-- SparklerRecorder.tsx, `animate` step 3 as a whole: the emission phase
over this tick's tracked slots, followed by the cleanup loop.  With no
tracked points the emission phase is empty and the cleanup loop deletes
every key. -/
def trackingTick (tracked : List Tracked) (chance : ℚ) (envs : ℕ → Rng)
    (reg : Registry) (light : ℚ) : Registry × List Particle × ℚ :=
  let out := emissionPhase chance envs tracked 0 reg light
  (cleanupPhase tracked out.1, out.2.1, out.2.2)

/-- A concrete random environment (every `Math.random()` call returns 0,
the direction functions return the unit x-direction), used to instantiate
universally quantified statements. -/
def rngZero : Rng := ⟨fun _ => 0, fun _ => 1, fun _ => 0⟩

/-! ## Helper lemmas -/

/-- The burst batch always has `BURST_PARTICLE_COUNT = 60` particles. -/
theorem createBurstParticles_length (x y : ℚ) (env : Rng) (k : ℕ) :
    (createBurstParticles x y env k).length = BURST_PARTICLE_COUNT := by
  simp [createBurstParticles]

/-- Every particle of a burst batch is burst-typed and sits at the spawn
position. -/
theorem createBurstParticles_mem (x y : ℚ) (env : Rng) (k : ℕ) (p : Particle)
    (hp : p ∈ createBurstParticles x y env k) :
    p.type = PKind.burst ∧ p.x = x ∧ p.y = y := by
  simp only [createBurstParticles, List.mem_map, List.mem_range] at hp
  obtain ⟨i, _, rfl⟩ := hp
  exact ⟨rfl, rfl, rfl⟩

/-- Trail particles are trail-typed. -/
theorem createTrailParticle_type (x y : ℚ) (v : Point) (c : String) (env : Rng) (k : ℕ) :
    (createTrailParticle x y v c env k).type = PKind.trail := rfl

/-- A surviving particle keeps its decay rate and has its life reduced by
exactly that decay rate. -/
theorem stepParticle_some_life (height : ℚ) (p q : Particle)
    (hq : stepParticle height p = some q) :
    q.life = p.life - p.decay ∧ q.decay = p.decay := by
  unfold stepParticle at hq
  by_cases h : 0 < p.life - p.decay
  · rw [if_pos h] at hq
    dsimp only at hq
    split at hq <;> (injection hq with h'; subst h'; exact ⟨rfl, rfl⟩)
  · rw [if_neg h] at hq; exact absurd hq (by simp)

/-- A particle whose life (after the decay subtraction) is nonpositive is
dropped by the simulation step. -/
theorem stepParticle_dead (height : ℚ) (p : Particle)
    (h : p.life - p.decay ≤ 0) : stepParticle height p = none := by
  unfold stepParticle
  rw [if_neg (by linarith)]

/-- `updateParticles` on a singleton is the option-step of its particle. -/
theorem updateParticles_singleton (width height : ℚ) (p : Particle) :
    updateParticles [p] width height = (stepParticle height p).toList := by
  unfold updateParticles
  cases hstep : stepParticle height p <;> simp [List.filterMap_cons, hstep]

/-- The empty population is a fixed point of iterated simulation ticks. -/
theorem updateParticles_iterate_nil (width height : ℚ) (n : ℕ) :
    (fun l => updateParticles l width height)^[n] [] = [] := by
  induction n with
  | zero => rfl
  | succ n ih => rw [Function.iterate_succ_apply]; exact ih

/-- Expiry auxiliary: a lone particle whose life is at most `(n+1)` times
its decay rate is gone after `n+1` simulation ticks. -/
theorem expiry_aux (width height : ℚ) :
    ∀ (n : ℕ) (p : Particle), p.life ≤ ((n : ℚ) + 1) * p.decay →
      (fun l => updateParticles l width height)^[n + 1] [p] = [] := by
  intro n
  induction n with
  | zero =>
    intro p hp
    rw [Function.iterate_one, updateParticles_singleton,
      stepParticle_dead height p (by push_cast at hp; linarith)]
    rfl
  | succ n ih =>
    intro p hp
    rw [Function.iterate_succ_apply, updateParticles_singleton]
    cases hstep : stepParticle height p with
    | none => exact updateParticles_iterate_nil width height (n + 1)
    | some q =>
      obtain ⟨hl, hd⟩ := stepParticle_some_life height p q hstep
      refine ih q ?_
      rw [hl, hd]
      push_cast at hp ⊢
      linarith

/-- The smoothed-speed square of a tick whose target is the current
position shifted by `(dx, dy)`. -/
theorem speed_sq_shift (a b dx dy : ℚ) :
    ((a + dx - a) * INERTIA_FACTOR)^2 + ((b + dy - b) * INERTIA_FACTOR)^2 =
      (dx^2 + dy^2) / 16 := by
  norm_num [INERTIA_FACTOR]
  ring

/-- An `updateEmitter` tick at smoothed speed above `BURST_ARM_SPEED`:
the emitter arms (and keeps the smoothed position/velocity update), no
burst particle is spawned, and the flash intensity is untouched. -/
theorem updateEmitter_fast (e : EmitterState) (tx ty chance : ℚ) (color : String)
    (light : ℚ) (env : Rng)
    (h : BURST_ARM_SPEED^2 <
      ((tx - e.x) * INERTIA_FACTOR)^2 + ((ty - e.y) * INERTIA_FACTOR)^2) :
    (updateEmitter (some e) tx ty chance color light env).emitter =
      ⟨e.x + (tx - e.x) * INERTIA_FACTOR, e.y + (ty - e.y) * INERTIA_FACTOR,
       (tx - e.x) * INERTIA_FACTOR, (ty - e.y) * INERTIA_FACTOR, true⟩ ∧
    (updateEmitter (some e) tx ty chance color light env).spawned.filter
      (fun p => p.type = PKind.burst) = [] ∧
    (updateEmitter (some e) tx ty chance color light env).lighting = light := by
  have hntrig : ¬(((tx - e.x) * INERTIA_FACTOR)^2 +
      ((ty - e.y) * INERTIA_FACTOR)^2 < BURST_TRIGGER_SPEED^2) := by
    norm_num [BURST_ARM_SPEED] at h
    norm_num [BURST_TRIGGER_SPEED]
    linarith
  simp only [updateEmitter]
  rw [if_pos h]
  simp only [hntrig, and_false, if_false]
  refine ⟨trivial, ?_, trivial⟩
  dsimp only
  rw [List.nil_append]
  split_ifs <;> simp [createTrailParticle]

/-- An `updateEmitter` tick of an armed emitter at smoothed speed exactly
3 (squared speed 9): below `BURST_TRIGGER_SPEED`, at (not above) the
trail threshold — the burst triggers, nothing else is spawned, the flash
is raised, and the emitter disarms. -/
theorem updateEmitter_trigger3 (e : EmitterState) (tx ty chance : ℚ) (color : String)
    (light : ℚ) (env : Rng) (harm : e.isBurstArmed = true)
    (hsq : ((tx - e.x) * INERTIA_FACTOR)^2 + ((ty - e.y) * INERTIA_FACTOR)^2 = 9) :
    updateEmitter (some e) tx ty chance color light env =
      ⟨⟨e.x + (tx - e.x) * INERTIA_FACTOR, e.y + (ty - e.y) * INERTIA_FACTOR,
        (tx - e.x) * INERTIA_FACTOR, (ty - e.y) * INERTIA_FACTOR, false⟩,
       createBurstParticles (e.x + (tx - e.x) * INERTIA_FACTOR)
         (e.y + (ty - e.y) * INERTIA_FACTOR) env 0,
       flashRaise light⟩ := by
  have harmno : ¬(BURST_ARM_SPEED^2 < ((tx - e.x) * INERTIA_FACTOR)^2 +
      ((ty - e.y) * INERTIA_FACTOR)^2) := by
    rw [hsq]; norm_num [BURST_ARM_SPEED]
  have htrig : ((tx - e.x) * INERTIA_FACTOR)^2 +
      ((ty - e.y) * INERTIA_FACTOR)^2 < BURST_TRIGGER_SPEED^2 := by
    rw [hsq]; norm_num [BURST_TRIGGER_SPEED]
  have hdraw : ¬(DRAW_SPEED_THRESHOLD^2 < ((tx - e.x) * INERTIA_FACTOR)^2 +
      ((ty - e.y) * INERTIA_FACTOR)^2) := by
    rw [hsq]; norm_num [DRAW_SPEED_THRESHOLD]
  simp only [updateEmitter, harmno, if_false, harm, htrig, and_true, if_true, hdraw,
    List.append_nil]

/-! ## Theorems -/

/-- C8: an emitter key newly observed this tick (no registry entry) is
seeded at the raw target position with zero velocity and
`burstArmed = false`, and `updateEmitter` returns before any emission:
it contributes zero particles (and leaves the flash intensity unchanged),
regardless of the target position. -/
theorem c8_create_no_emission (targetX targetY chance : ℚ) (color : String)
    (lighting : ℚ) (env : Rng) :
    updateEmitter none targetX targetY chance color lighting env =
      ⟨⟨targetX, targetY, 0, 0, false⟩, [], lighting⟩ := rfl

/-- C5: the per-emitter emission probability equals
`1 / max(1, E * 0.5)` for `E` active emitters; it is always ≤ 1,
`E = 1` gives `1`, `E = 10` gives `0.2`, and `E = 0` still gives the
well-defined value `1` because the divisor is floored at 1. -/
theorem c5_density_bound (E : ℕ) :
    particleMultiplier E = 1 / max 1 ((E : ℚ) * (1/2)) ∧
    particleMultiplier E ≤ 1 ∧
    particleMultiplier 1 = 1 ∧
    particleMultiplier 10 = 1/5 ∧
    particleMultiplier 0 = 1 := by
  refine ⟨rfl, ?_, by norm_num [particleMultiplier],
    by norm_num [particleMultiplier], by norm_num [particleMultiplier]⟩
  unfold particleMultiplier
  rw [div_le_one (lt_of_lt_of_le one_pos (le_max_left _ _))]
  exact le_max_left _ _

/-- C4 counterexample: the burst palette is NOT disjoint from the trail
color — `BURST_COLORS` contains the gold entry `'255, 215, 0'`, which is
exactly `TRAIL_COLOR`. -/
theorem c4_palette_contains_trail_color : TRAIL_COLOR ∈ BURST_COLORS := by decide

/-- C4 (amended): every burst particle's color is drawn from the fixed
four-entry palette `BURST_COLORS` (given the JS contract
`0 ≤ Math.random() < 1`), but the palette is not disjoint from the trail
color: exactly one palette entry (gold) equals `TRAIL_COLOR`. -/
theorem c4_burst_palette (x y : ℚ) (env : Rng) (k : ℕ)
    (hr : ∀ i, 0 ≤ env.rand i ∧ env.rand i < 1) :
    (∀ p ∈ createBurstParticles x y env k,
      ∃ c ∈ BURST_COLORS, p.color = "rgba(" ++ c ++ ",") ∧
    BURST_COLORS.count TRAIL_COLOR = 1 := by
  refine ⟨?_, by decide⟩
  intro p hp
  simp only [createBurstParticles, List.mem_map, List.mem_range] at hp
  obtain ⟨i, _, rfl⟩ := hp
  have h0 := (hr (k + 5*i + 2)).1
  have h1 := (hr (k + 5*i + 2)).2
  have hlen : BURST_COLORS.length = 4 := by decide
  have hcast : ((BURST_COLORS.length : ℕ) : ℚ) = 4 := by rw [hlen]; norm_num
  have hfl : ⌊env.rand (k + 5*i + 2) * (BURST_COLORS.length : ℚ)⌋ < 4 := by
    rw [hcast]
    exact Int.floor_lt.mpr (by push_cast; nlinarith)
  have hnat : (⌊env.rand (k + 5*i + 2) * (BURST_COLORS.length : ℚ)⌋).toNat < BURST_COLORS.length := by
    omega
  refine ⟨BURST_COLORS.getD (⌊env.rand (k + 5*i + 2) * (BURST_COLORS.length : ℚ)⌋).toNat "", ?_, ?_⟩
  · rw [List.getD_eq_getElem _ _ hnat]
    exact List.getElem_mem hnat
  · rfl

/-- C4 witness for `c4_burst_palette` at a concrete random environment. -/
theorem c4_burst_palette_witness :
    (∀ p ∈ createBurstParticles 0 0 ⟨fun _ => 0, fun _ => 1, fun _ => 0⟩ 0,
      ∃ c ∈ BURST_COLORS, p.color = "rgba(" ++ c ++ ",") ∧
    BURST_COLORS.count TRAIL_COLOR = 1 :=
  c4_burst_palette 0 0 ⟨fun _ => 0, fun _ => 1, fun _ => 0⟩ 0
    (fun _ => ⟨le_refl 0, by norm_num⟩)

/-- C2 counterexample: a particle at the floor (`y = height = 10`) with
`vy = 1 > 0` and `gravity = 0.1` that survives the decay step leaves the
tick with `vy' = -0.66` (the code adds gravity to `vy` BEFORE the bounce
reflection), not `-0.6 × vy = -0.6` as the claim states. -/
theorem c2_floor_bounce_counterexample :
    (updateParticles [⟨0, 10, 0, 1, 1, 1/100, "", 1, PKind.burst, 1/10⟩] 100 10).map
        Particle.vy = [-(33/50)] ∧
    (-(33/50) : ℚ) ≠ -(3/5) * 1 := by
  constructor
  · norm_num [updateParticles, stepParticle, List.filterMap_cons]
  · norm_num

/-- C2 (amended): a particle with `y = height`, `vy > 0`, nonnegative
gravity, surviving the decay step, leaves the tick with
`vy' = -0.6 × (vy + gravity)` (gravity is applied before the bounce
reflection) and `y' = height`. -/
theorem c2_floor_bounce (p : Particle) (width height : ℚ)
    (hy : p.y = height) (hvy : 0 < p.vy) (hg : 0 ≤ p.gravity)
    (hlife : 0 < p.life - p.decay) :
    updateParticles [p] width height =
      [{ p with x := p.x + p.vx, y := height,
                vy := (p.vy + p.gravity) * (-(3/5)),
                life := p.life - p.decay }] := by
  have h2 : height < p.y + p.vy := by rw [hy]; linarith
  have h3 : (0:ℚ) < p.vy + p.gravity := by linarith
  simp [updateParticles, stepParticle, hlife, h2, h3]

/-- C2 witness for `c2_floor_bounce` at a concrete particle. -/
theorem c2_floor_bounce_witness :
    updateParticles [⟨0, 10, 0, 1, 1, 1/100, "", 1, PKind.burst, 1/10⟩] 100 10 =
      [{ (⟨0, 10, 0, 1, 1, 1/100, "", 1, PKind.burst, 1/10⟩ : Particle) with
          x := 0 + 0, y := 10, vy := (1 + 1/10) * (-(3/5)), life := 1 - 1/100 }] :=
  c2_floor_bounce ⟨0, 10, 0, 1, 1, 1/100, "", 1, PKind.burst, 1/10⟩ 100 10
    (by norm_num) (by norm_num) (by norm_num) (by norm_num)

/-- C3 counterexample: the flash intensity is NOT decayed on every tick —
at intensity `1/200 = 0.005` (below the `0.01` visibility guard) the tick
leaves it unchanged instead of multiplying by `0.85`. -/
theorem c3_decay_not_every_tick :
    lightingDecayTick (1/200) = 1/200 ∧ (1/200 : ℚ) * (17/20) ≠ 1/200 := by
  constructor
  · norm_num [lightingDecayTick]
  · norm_num

/-- C3 (amended): starting from any intensity in `[0,1]`, both the burst
raise (`+0.5` clamped to `1`) and the per-tick decay keep the intensity in
`[0,1]`; the `×0.85` decay is applied on a tick exactly when the intensity
exceeds the `0.01` visibility guard (otherwise the tick leaves it
unchanged). -/
theorem c3_flash_intensity_range (l : ℚ) (h0 : 0 ≤ l) (h1 : l ≤ 1) :
    (0 ≤ flashRaise l ∧ flashRaise l ≤ 1) ∧
    (0 ≤ lightingDecayTick l ∧ lightingDecayTick l ≤ 1) ∧
    (1/100 < l → lightingDecayTick l = l * (17/20)) ∧
    (l ≤ 1/100 → lightingDecayTick l = l) := by
  unfold flashRaise lightingDecayTick
  refine ⟨⟨le_min (by linarith) (by norm_num), min_le_right _ _⟩, ?_, ?_, ?_⟩
  · split
    · constructor <;> nlinarith
    · exact ⟨h0, h1⟩
  · intro h; rw [if_pos h]
  · intro h; rw [if_neg (by linarith)]

/-- C3 witness for `c3_flash_intensity_range` at intensity `1/2`. -/
theorem c3_flash_intensity_range_witness :
    ((0 ≤ flashRaise (1/2) ∧ flashRaise (1/2) ≤ 1) ∧
     (0 ≤ lightingDecayTick (1/2) ∧ lightingDecayTick (1/2) ≤ 1) ∧
     (1/100 < (1/2 : ℚ) → lightingDecayTick (1/2) = (1/2) * (17/20)) ∧
     ((1/2 : ℚ) ≤ 1/100 → lightingDecayTick (1/2) = 1/2)) :=
  c3_flash_intensity_range (1/2) (by norm_num) (by norm_num)

/-- C6: a particle with life at most 1 and positive decay rate is absent
from the population after `ceil(1 / decay)` simulation ticks with no
further emission. -/
theorem c6_expiry (width height : ℚ) (p : Particle)
    (hlife : p.life ≤ 1) (hdecay : 0 < p.decay) :
    (fun l => updateParticles l width height)^[Nat.ceil (1 / p.decay)] [p] = [] := by
  have hpos : 0 < Nat.ceil (1 / p.decay) :=
    Nat.ceil_pos.mpr (by positivity)
  obtain ⟨n, hn⟩ : ∃ n, Nat.ceil (1 / p.decay) = n + 1 :=
    ⟨Nat.ceil (1 / p.decay) - 1, by omega⟩
  rw [hn]
  refine expiry_aux width height n p ?_
  have hceil : (1 : ℚ) / p.decay ≤ ((Nat.ceil (1 / p.decay) : ℕ) : ℚ) := Nat.le_ceil _
  rw [hn] at hceil
  push_cast at hceil
  calc p.life ≤ 1 := hlife
    _ = (1 / p.decay) * p.decay := by field_simp
    _ ≤ ((n : ℚ) + 1) * p.decay := by
        exact mul_le_mul_of_nonneg_right hceil (le_of_lt hdecay)

/-- C6 witness for `c6_expiry`: a particle with decay `1/2` is gone after
`ceil(2) = 2` ticks. -/
theorem c6_expiry_witness :
    (fun l => updateParticles l 100 100)^[Nat.ceil
      ((1 : ℚ) / (⟨0, 0, 0, 0, 1, 1/2, "", 1, PKind.trail, 1/10⟩ : Particle).decay)]
      [⟨0, 0, 0, 0, 1, 1/2, "", 1, PKind.trail, 1/10⟩] = [] :=
  c6_expiry 100 100 ⟨0, 0, 0, 0, 1, 1/2, "", 1, PKind.trail, 1/10⟩
    (by norm_num) (by norm_num)

/-- C7: if every particle entering a tick has `life ≤ 1` and a
nonnegative decay rate, then every particle surviving the tick has
`life ∈ (0, 1]`; and a particle whose life becomes `≤ 0` is dropped by
the per-particle step in that same tick (so it is never handed to the
renderer with non-positive life). -/
theorem c7_life_invariant (pop : List Particle) (width height : ℚ)
    (hpop : ∀ p ∈ pop, p.life ≤ 1 ∧ 0 ≤ p.decay) :
    (∀ q ∈ updateParticles pop width height, 0 < q.life ∧ q.life ≤ 1) ∧
    (∀ p : Particle, p.life - p.decay ≤ 0 → stepParticle height p = none) := by
  constructor
  · intro q hq
    rw [updateParticles, List.mem_filterMap] at hq
    obtain ⟨p, hp, hstep⟩ := hq
    obtain ⟨hl, hd⟩ := hpop p hp
    have hq0 : ¬(p.life - p.decay ≤ 0) := by
      intro hle
      rw [stepParticle_dead height p hle] at hstep
      exact Option.noConfusion hstep
    obtain ⟨hql, _⟩ := stepParticle_some_life height p q hstep
    constructor
    · rw [hql]; linarith
    · rw [hql]; linarith
  · exact fun p hp => stepParticle_dead height p hp

/-- C7 witness for `c7_life_invariant` at a concrete two-particle
population (one survivor, one dropped). -/
theorem c7_life_invariant_witness :
    (∀ q ∈ updateParticles
        [⟨0, 0, 0, 0, 1, 1/2, "", 1, PKind.trail, 1/10⟩,
         ⟨0, 0, 0, 0, 1/2, 3/4, "", 1, PKind.burst, 1/10⟩] 100 100,
      0 < q.life ∧ q.life ≤ 1) ∧
    (∀ p : Particle, p.life - p.decay ≤ 0 → stepParticle 100 p = none) :=
  c7_life_invariant
    [⟨0, 0, 0, 0, 1, 1/2, "", 1, PKind.trail, 1/10⟩,
     ⟨0, 0, 0, 0, 1/2, 3/4, "", 1, PKind.burst, 1/10⟩] 100 100
    (by intro p hp
        simp only [List.mem_cons, List.not_mem_nil, or_false] at hp
        rcases hp with rfl | rfl <;> exact ⟨by norm_num, by norm_num⟩)

/-- C10: one `updateEmitter` call on an existing emitter adds at most 62
particles (one 60-particle burst batch plus at most two trail particles);
and burst triggering and trail emission are not mutually exclusive: an
armed emitter decelerating to smoothed speed 4 (between
`DRAW_SPEED_THRESHOLD = 3` and `BURST_TRIGGER_SPEED = 5`) spawns the
60-particle burst batch and a trail particle in the same call. -/
theorem c10_emission_bound :
    (∀ (e : EmitterState) (tx ty chance : ℚ) (color : String) (light : ℚ) (env : Rng),
      (updateEmitter (some e) tx ty chance color light env).spawned.length ≤ 62) ∧
    (((updateEmitter (some ⟨0, 0, 0, 0, true⟩) 16 0 1 "c" 0 rngZero).spawned.filter
        (fun p => p.type = PKind.burst)).length = 60 ∧
     ((updateEmitter (some ⟨0, 0, 0, 0, true⟩) 16 0 1 "c" 0 rngZero).spawned.filter
        (fun p => p.type = PKind.trail)).length = 1) := by
  have hconc : updateEmitter (some ⟨0, 0, 0, 0, true⟩) 16 0 1 "c" 0 rngZero =
      ⟨⟨0 + (16 - 0) * INERTIA_FACTOR, 0 + (0 - 0) * INERTIA_FACTOR,
        (16 - 0) * INERTIA_FACTOR, (0 - 0) * INERTIA_FACTOR, false⟩,
       createBurstParticles (0 + (16 - 0) * INERTIA_FACTOR) (0 + (0 - 0) * INERTIA_FACTOR) rngZero 0 ++
         ([createTrailParticle (0 + (16 - 0) * INERTIA_FACTOR) (0 + (0 - 0) * INERTIA_FACTOR)
            ⟨(16 - 0) * INERTIA_FACTOR, (0 - 0) * INERTIA_FACTOR⟩ "c" rngZero 301] ++ []),
       flashRaise 0⟩ := by
    simp only [updateEmitter, rngZero]
    norm_num [BURST_ARM_SPEED, BURST_TRIGGER_SPEED, DRAW_SPEED_THRESHOLD, INERTIA_FACTOR]
  refine ⟨?_, ?_, ?_⟩
  · intro e tx ty chance color light env
    simp only [updateEmitter]
    split_ifs <;>
      simp [createBurstParticles_length, BURST_PARTICLE_COUNT, List.length_append]
  · rw [hconc]
    dsimp only
    rw [List.filter_append, List.filter_append]
    have h1 : (createBurstParticles (0 + (16 - 0) * INERTIA_FACTOR)
        (0 + (0 - 0) * INERTIA_FACTOR) rngZero 0).filter (fun p => p.type = PKind.burst) =
        createBurstParticles (0 + (16 - 0) * INERTIA_FACTOR) (0 + (0 - 0) * INERTIA_FACTOR) rngZero 0 :=
      List.filter_eq_self.mpr (fun p hp => by
        simp [(createBurstParticles_mem _ _ _ _ p hp).1])
    rw [h1]
    simp [createBurstParticles_length, BURST_PARTICLE_COUNT, createTrailParticle]
  · rw [hconc]
    dsimp only
    rw [List.filter_append, List.filter_append]
    have h1 : (createBurstParticles (0 + (16 - 0) * INERTIA_FACTOR)
        (0 + (0 - 0) * INERTIA_FACTOR) rngZero 0).filter (fun p => p.type = PKind.trail) = [] := by
      rw [List.filter_eq_nil_iff]
      intro p hp
      simp [(createBurstParticles_mem _ _ _ _ p hp).1]
    rw [h1]
    simp [createTrailParticle]

/-- C1: for any emitter driven by `updateEmitter` on three consecutive
ticks whose smoothed speeds are `[20, 20, 3]` (squared: `[400, 400, 9]`),
the first two ticks set `burstArmed = true` and spawn no burst particle;
the third tick spawns exactly one burst batch of 60 particles at the
emitter position and resets `burstArmed = false`.  For three consecutive
ticks at smoothed speed `20` (`[20, 20, 20]`) no burst is ever spawned
while the emitter stays armed. -/
theorem c1_arm_trigger_hysteresis (e0 : EmitterState)
    (t1x t1y t2x t2y t3x t3y u1x u1y u2x u2y u3x u3y chance light : ℚ)
    (color : String) (env1 env2 env3 env4 env5 env6 : Rng) :
    (let r1 := updateEmitter (some e0) t1x t1y chance color light env1
     let r2 := updateEmitter (some r1.emitter) t2x t2y chance color r1.lighting env2
     let r3 := updateEmitter (some r2.emitter) t3x t3y chance color r2.lighting env3
     ((t1x - e0.x) * INERTIA_FACTOR)^2 + ((t1y - e0.y) * INERTIA_FACTOR)^2 = 400 →
     ((t2x - r1.emitter.x) * INERTIA_FACTOR)^2 +
       ((t2y - r1.emitter.y) * INERTIA_FACTOR)^2 = 400 →
     ((t3x - r2.emitter.x) * INERTIA_FACTOR)^2 +
       ((t3y - r2.emitter.y) * INERTIA_FACTOR)^2 = 9 →
     (r1.emitter.isBurstArmed = true ∧
        r1.spawned.filter (fun p => p.type = PKind.burst) = []) ∧
     (r2.emitter.isBurstArmed = true ∧
        r2.spawned.filter (fun p => p.type = PKind.burst) = []) ∧
     (r3.emitter.isBurstArmed = false ∧
        r3.spawned = createBurstParticles r3.emitter.x r3.emitter.y env3 0 ∧
        r3.spawned.length = 60 ∧
        ∀ p ∈ r3.spawned, p.type = PKind.burst ∧
          p.x = r3.emitter.x ∧ p.y = r3.emitter.y)) ∧
    (let s1 := updateEmitter (some e0) u1x u1y chance color light env4
     let s2 := updateEmitter (some s1.emitter) u2x u2y chance color s1.lighting env5
     let s3 := updateEmitter (some s2.emitter) u3x u3y chance color s2.lighting env6
     ((u1x - e0.x) * INERTIA_FACTOR)^2 + ((u1y - e0.y) * INERTIA_FACTOR)^2 = 400 →
     ((u2x - s1.emitter.x) * INERTIA_FACTOR)^2 +
       ((u2y - s1.emitter.y) * INERTIA_FACTOR)^2 = 400 →
     ((u3x - s2.emitter.x) * INERTIA_FACTOR)^2 +
       ((u3y - s2.emitter.y) * INERTIA_FACTOR)^2 = 400 →
     s1.spawned.filter (fun p => p.type = PKind.burst) = [] ∧
     s2.spawned.filter (fun p => p.type = PKind.burst) = [] ∧
     s3.spawned.filter (fun p => p.type = PKind.burst) = [] ∧
     s3.emitter.isBurstArmed = true) := by
  constructor
  · dsimp only
    intro h1 h2 h3
    obtain ⟨he1, hb1, hl1⟩ := updateEmitter_fast e0 t1x t1y chance color light env1
      (by rw [h1]; norm_num [BURST_ARM_SPEED])
    obtain ⟨he2, hb2, hl2⟩ := updateEmitter_fast
      (updateEmitter (some e0) t1x t1y chance color light env1).emitter t2x t2y
      chance color (updateEmitter (some e0) t1x t1y chance color light env1).lighting env2
      (by rw [h2]; norm_num [BURST_ARM_SPEED])
    have ht3 := updateEmitter_trigger3
      (updateEmitter (some (updateEmitter (some e0) t1x t1y chance color light
          env1).emitter) t2x t2y chance color (updateEmitter (some e0) t1x t1y chance
          color light env1).lighting env2).emitter t3x t3y
      chance color (updateEmitter (some (updateEmitter (some e0) t1x t1y chance color
          light env1).emitter) t2x t2y chance color (updateEmitter (some e0) t1x t1y
          chance color light env1).lighting env2).lighting env3
      (by rw [he2]) h3
    refine ⟨⟨by rw [he1], hb1⟩, ⟨by rw [he2], hb2⟩, by rw [ht3], ?_, ?_, ?_⟩
    · rw [ht3]
    · rw [ht3, createBurstParticles_length]; rfl
    · rw [ht3]
      exact fun p hp => createBurstParticles_mem _ _ _ _ p hp
  · dsimp only
    intro h1 h2 h3
    obtain ⟨he4, hb4, hl4⟩ := updateEmitter_fast e0 u1x u1y chance color light env4
      (by rw [h1]; norm_num [BURST_ARM_SPEED])
    obtain ⟨he5, hb5, hl5⟩ := updateEmitter_fast
      (updateEmitter (some e0) u1x u1y chance color light env4).emitter u2x u2y
      chance color (updateEmitter (some e0) u1x u1y chance color light env4).lighting env5
      (by rw [h2]; norm_num [BURST_ARM_SPEED])
    obtain ⟨he6, hb6, hl6⟩ := updateEmitter_fast
      (updateEmitter (some (updateEmitter (some e0) u1x u1y chance color light
          env4).emitter) u2x u2y chance color (updateEmitter (some e0) u1x u1y chance
          color light env4).lighting env5).emitter u3x u3y
      chance color (updateEmitter (some (updateEmitter (some e0) u1x u1y chance color
          light env4).emitter) u2x u2y chance color (updateEmitter (some e0) u1x u1y
          chance color light env4).lighting env5).lighting env6
      (by rw [h3]; norm_num [BURST_ARM_SPEED])
    exact ⟨hb4, hb5, hb6, by rw [he6]⟩

/-- C1 witness for `c1_arm_trigger_hysteresis`: an emitter starting at
the origin driven to targets `80, 100, 52` (smoothed speeds 20, 20, 3)
and `80, 100, 120` (speeds 20, 20, 20). -/
theorem c1_arm_trigger_hysteresis_witness :
    (let r1 := updateEmitter (some ⟨0, 0, 0, 0, false⟩) 80 0 1 "c" 0 rngZero
     let r2 := updateEmitter (some r1.emitter) 100 0 1 "c" r1.lighting rngZero
     let r3 := updateEmitter (some r2.emitter) 52 0 1 "c" r2.lighting rngZero
     (r1.emitter.isBurstArmed = true ∧
        r1.spawned.filter (fun p => p.type = PKind.burst) = []) ∧
     (r2.emitter.isBurstArmed = true ∧
        r2.spawned.filter (fun p => p.type = PKind.burst) = []) ∧
     (r3.emitter.isBurstArmed = false ∧
        r3.spawned = createBurstParticles r3.emitter.x r3.emitter.y rngZero 0 ∧
        r3.spawned.length = 60 ∧
        ∀ p ∈ r3.spawned, p.type = PKind.burst ∧
          p.x = r3.emitter.x ∧ p.y = r3.emitter.y)) ∧
    (let s1 := updateEmitter (some ⟨0, 0, 0, 0, false⟩) 80 0 1 "c" 0 rngZero
     let s2 := updateEmitter (some s1.emitter) 100 0 1 "c" s1.lighting rngZero
     let s3 := updateEmitter (some s2.emitter) 120 0 1 "c" s2.lighting rngZero
     s1.spawned.filter (fun p => p.type = PKind.burst) = [] ∧
     s2.spawned.filter (fun p => p.type = PKind.burst) = [] ∧
     s3.spawned.filter (fun p => p.type = PKind.burst) = [] ∧
     s3.emitter.isBurstArmed = true) := by
  have hE1 : (updateEmitter (some ⟨0, 0, 0, 0, false⟩) 80 0 1 "c" 0 rngZero).emitter =
      ⟨20, 0, 20, 0, true⟩ := by
    rw [(updateEmitter_fast ⟨0, 0, 0, 0, false⟩ 80 0 1 "c" 0 rngZero
      (by norm_num [INERTIA_FACTOR, BURST_ARM_SPEED])).1]
    norm_num [INERTIA_FACTOR]
  have hE2 : (updateEmitter
      (some (updateEmitter (some ⟨0, 0, 0, 0, false⟩) 80 0 1 "c" 0 rngZero).emitter)
      100 0 1 "c" (updateEmitter (some ⟨0, 0, 0, 0, false⟩) 80 0 1 "c" 0 rngZero).lighting
      rngZero).emitter = ⟨40, 0, 20, 0, true⟩ := by
    rw [(updateEmitter_fast
      (updateEmitter (some ⟨0, 0, 0, 0, false⟩) 80 0 1 "c" 0 rngZero).emitter 100 0 1 "c"
      (updateEmitter (some ⟨0, 0, 0, 0, false⟩) 80 0 1 "c" 0 rngZero).lighting rngZero
      (by rw [hE1]; norm_num [INERTIA_FACTOR, BURST_ARM_SPEED])).1, hE1]
    norm_num [INERTIA_FACTOR]
  obtain ⟨hA, hB⟩ := c1_arm_trigger_hysteresis ⟨0, 0, 0, 0, false⟩
    80 0 100 0 52 0 80 0 100 0 120 0 1 0 "c"
    rngZero rngZero rngZero rngZero rngZero rngZero
  exact ⟨hA (by norm_num [INERTIA_FACTOR])
            (by rw [hE1]; norm_num [INERTIA_FACTOR])
            (by rw [hE2]; norm_num [INERTIA_FACTOR]),
         hB (by norm_num [INERTIA_FACTOR])
            (by rw [hE1]; norm_num [INERTIA_FACTOR])
            (by rw [hE2]; norm_num [INERTIA_FACTOR])⟩

/-- Deleting one key from the registry does not change the lookup of any
other key. -/
theorem regGet_erase_ne (k kq : String) (hne : kq ≠ k) :
    ∀ reg : Registry, regGet kq (regErase k reg) = regGet kq reg := by
  intro reg
  induction reg with
  | nil => rfl
  | cons kv rest ih =>
    obtain ⟨k1, v⟩ := kv
    rw [regErase]
    by_cases hk : k1 = k
    · rw [if_pos hk, ih, regGet, if_neg (by rw [hk]; exact fun h => hne h.symm)]
    · rw [if_neg hk, regGet, regGet]
      by_cases he : k1 = kq
      · rw [if_pos he, if_pos he]
      · rw [if_neg he, if_neg he]; exact ih

/-- Writing one key and deleting a different key commute. -/
theorem regSet_erase_comm (k ks : String) (v : EmitterState) (hne : ks ≠ k) :
    ∀ reg : Registry, regSet ks v (regErase k reg) = regErase k (regSet ks v reg) := by
  intro reg
  induction reg with
  | nil =>
    rw [regErase, regSet, regErase, if_neg hne, regErase]
  | cons kv rest ih =>
    obtain ⟨k1, w⟩ := kv
    by_cases hk : k1 = k
    · rw [regErase, if_pos hk, regSet,
        if_neg (show k1 ≠ ks by rw [hk]; exact fun h => hne h.symm),
        regErase, if_pos hk]
      exact ih
    · rw [regErase, if_neg hk, regSet, regSet]
      by_cases hs : k1 = ks
      · rw [if_pos hs, if_pos hs, regErase, if_neg hne]
      · rw [if_neg hs, if_neg hs, regErase, if_neg hk, ih]

/-- The emission phase of a tick never consults a registry entry whose
key is not tracked this tick: running it with that entry deleted reaches
the same registry (up to the same deletion), spawns the same particles,
and produces the same flash intensity. -/
theorem emissionPhase_erase (chance : ℚ) (envs : ℕ → Rng) (k : String) :
    ∀ (tracked : List Tracked) (i : ℕ) (reg : Registry) (light : ℚ),
      k ∉ tracked.map Tracked.key →
      emissionPhase chance envs tracked i (regErase k reg) light =
        (regErase k (emissionPhase chance envs tracked i reg light).1,
         (emissionPhase chance envs tracked i reg light).2.1,
         (emissionPhase chance envs tracked i reg light).2.2) := by
  intro tracked
  induction tracked with
  | nil => intro i reg light h; rfl
  | cons t rest ih =>
    intro i reg light h
    simp only [List.map_cons, List.mem_cons, not_or] at h
    obtain ⟨h1, h2⟩ := h
    have hne : t.key ≠ k := fun hEq => h1 hEq.symm
    simp only [emissionPhase]
    rw [regGet_erase_ne k t.key hne, regSet_erase_comm k t.key _ hne,
      ih (i + 1) (regSet t.key (updateEmitter (regGet t.key reg) t.x t.y chance
        t.color light (envs i)).emitter reg)
      (updateEmitter (regGet t.key reg) t.x t.y chance t.color light (envs i)).lighting h2]

/-- A key absent from the tracked set does not survive the cleanup loop. -/
theorem regGet_cleanup_none (tracked : List Tracked) (k : String)
    (hk : k ∉ tracked.map Tracked.key) :
    ∀ reg : Registry, regGet k (cleanupPhase tracked reg) = none := by
  intro reg
  induction reg with
  | nil => rfl
  | cons kv rest ih =>
    simp only [cleanupPhase] at ih ⊢
    rw [List.filter_cons]
    by_cases hc : (tracked.map Tracked.key).contains kv.1 = true
    · rw [if_pos hc, regGet,
        if_neg (fun hEq => hk (by rw [← hEq]; simpa using hc))]
      exact ih
    · rw [if_neg hc]
      exact ih

/-- C9 counterexample: an emitter keyed `"0-0"`, absent from this tick's
tracked set, is still in the registry after the tick's entire emission
phase (the `forEach` of `updateEmitter` calls) — it is removed only by
the cleanup loop that runs afterwards, not "before the particle emission
phase" as claimed. -/
theorem c9_not_removed_before_emission :
    regGet "0-0" (emissionPhase 1 (fun _ => rngZero)
      [⟨"0-1", 5, 6, "c"⟩] 0 [("0-0", ⟨1, 2, 3, 4, false⟩)] 0).1 =
      some ⟨1, 2, 3, 4, false⟩ := by
  rfl

/-- C9 (amended): an emitter key absent from this tick's tracked set is
removed from the registry during the tick, but by the cleanup loop that
runs AFTER the emission phase; it still emits no particles this tick,
since the emission phase consults only tracked keys (deleting the stale
entry beforehand changes neither the spawned particles nor the flash
intensity); and with zero tracked points every registry key is deleted
and nothing is spawned. -/
theorem c9_deletion_on_loss (tracked : List Tracked) (chance : ℚ) (envs : ℕ → Rng)
    (reg : Registry) (light : ℚ) (k : String)
    (hk : k ∉ tracked.map Tracked.key) :
    regGet k (trackingTick tracked chance envs reg light).1 = none ∧
    (trackingTick tracked chance envs (regErase k reg) light).2 =
      (trackingTick tracked chance envs reg light).2 ∧
    trackingTick [] chance envs reg light = ([], [], light) := by
  refine ⟨?_, ?_, ?_⟩
  · exact regGet_cleanup_none tracked k hk _
  · simp only [trackingTick]
    rw [emissionPhase_erase chance envs k tracked 0 reg light hk]
  · simp only [trackingTick, emissionPhase, cleanupPhase, List.map_nil]
    simp [List.filter_eq_nil_iff]

/-- C9 witness for `c9_deletion_on_loss`: key `"0-0"` is tracked at tick
N but not at tick N+1, which tracks only `"0-1"`. -/
theorem c9_deletion_on_loss_witness :
    regGet "0-0" (trackingTick [⟨"0-1", 5, 6, "c"⟩] 1 (fun _ => rngZero)
      [("0-0", ⟨1, 2, 3, 4, false⟩)] 0).1 = none ∧
    (trackingTick [⟨"0-1", 5, 6, "c"⟩] 1 (fun _ => rngZero)
      (regErase "0-0" [("0-0", ⟨1, 2, 3, 4, false⟩)]) 0).2 =
      (trackingTick [⟨"0-1", 5, 6, "c"⟩] 1 (fun _ => rngZero)
        [("0-0", ⟨1, 2, 3, 4, false⟩)] 0).2 ∧
    trackingTick [] 1 (fun _ => rngZero) [("0-0", ⟨1, 2, 3, 4, false⟩)] 0 =
      ([], [], 0) :=
  c9_deletion_on_loss [⟨"0-1", 5, 6, "c"⟩] 1 (fun _ => rngZero)
    [("0-0", ⟨1, 2, 3, 4, false⟩)] 0 "0-0" (by decide)

end Sparkler
